import Mathlib

/-!
Verification of the Peer Reputation and Catchup Coordination Subsystem.

Shallow embedding of:
- the generational cache (stores/blockchain/sql, `GenerationalCache`),
- the peer registry snapshot store (`SavePeerRegistryCache` / `LoadPeerRegistryCache`),
- the catchup peer selection (`Server.selectBestPeersForCatchup`),
- the reporting RPC handlers (`Server.RecordCatchup*`, `Server.GetPeerRegistry`),
- the recorder facade helpers (`Server.reportCatchup*`).

Machine integers are modelled as `Nat`/`Int`; `float64` scores and success
rates are modelled as `ℚ`; time instants and durations as integers.
-/

namespace Teranode

/-! ## Generational cache (GenerationalCache / CacheQuery)

The Go code keeps a ttlcache map from `chainhash.Hash` to `any` together with
an atomic `generation` counter.  Entries carry an expiry instant (`now + ttl`);
an expired entry behaves as a miss.  We model the map as a function from keys
to optional `(value, expiry)` pairs and the generation as a `Nat`. -/

/-- State of a `GenerationalCache`: the ttlcache content plus the atomic
generation counter. -/
structure GenCache (κ ν : Type) where
  entries : κ → Option (ν × Nat)
  generation : Nat

/-- `CacheQuery`: a key together with the generation captured at
`BeginQuery` time. -/
structure CacheQuery (κ : Type) where
  key : κ
  generation : Nat

/-- `BeginQuery` captures the current generation into a `CacheQuery`. -/
def GenCache.beginQuery {κ ν : Type} (gc : GenCache κ ν) (k : κ) : CacheQuery κ :=
  { key := k, generation := gc.generation }

/-- `CacheQuery.Get`: TTL lookup at time `now`; an entry whose expiry is not
in the future is a miss. -/
def GenCache.queryGet {κ ν : Type} (gc : GenCache κ ν) (q : CacheQuery κ) (now : Nat) :
    Option ν :=
  match gc.entries q.key with
  | none => none
  | some (v, expiry) => if now < expiry then some v else none

/-- `CacheQuery.Set`: writes `(v, now + ttl)` and returns `true` when the
captured generation still equals the cache generation; otherwise leaves the
cache unchanged and returns `false`. -/
def GenCache.querySet {κ ν : Type} [DecidableEq κ] (gc : GenCache κ ν) (q : CacheQuery κ)
    (v : ν) (ttl now : Nat) : GenCache κ ν × Bool :=
  if q.generation = gc.generation then
    ({ gc with entries := fun k => if k = q.key then some (v, now + ttl) else gc.entries k },
      true)
  else
    (gc, false)

/-- `DeleteAll`: removes every entry and increments the generation. -/
def GenCache.deleteAll {κ ν : Type} (gc : GenCache κ ν) : GenCache κ ν :=
  { entries := fun _ => none, generation := gc.generation + 1 }

/-- One cache mutation that may be interleaved between a `BeginQuery` and the
corresponding `Set`: an invalidation, or a `Set` issued by some other query. -/
inductive CacheOp (κ ν : Type) where
  | deleteAll : CacheOp κ ν
  | setOp (q : CacheQuery κ) (v : ν) (ttl now : Nat) : CacheOp κ ν

/-- Apply one interleaved operation to the cache state. -/
def GenCache.stepOp {κ ν : Type} [DecidableEq κ] (gc : GenCache κ ν) :
    CacheOp κ ν → GenCache κ ν
  | CacheOp.deleteAll => gc.deleteAll
  | CacheOp.setOp q v ttl now => (gc.querySet q v ttl now).1

/-- Run a sequence of interleaved operations. -/
def GenCache.runOps {κ ν : Type} [DecidableEq κ] (gc : GenCache κ ν) :
    List (CacheOp κ ν) → GenCache κ ν
  | [] => gc
  | op :: ops => (gc.stepOp op).runOps ops

/-- Number of `DeleteAll` calls in an interleaving. -/
def countDeleteAll {κ ν : Type} : List (CacheOp κ ν) → Nat
  | [] => 0
  | CacheOp.deleteAll :: ops => countDeleteAll ops + 1
  | CacheOp.setOp _ _ _ _ :: ops => countDeleteAll ops

/-! ## Peer registry records and the snapshot store (services/p2p)

`PeerInfo` models the registry record fields used by the snapshot store, the
RPC handlers and catchup selection.  Go `int32`/`int64` counters become `Int`,
`time.Time` values become `Int` instants (`0` = zero time), `time.Duration`
becomes an `Int` number of milliseconds, and the `float64` reputation score
becomes `ℚ`. -/

/-- Registry record for one peer (the fields the verified operations read or
write). -/
structure PeerInfo where
  id : String
  height : Int
  blockHash : String
  dataHubURL : String
  isHealthy : Bool
  isBanned : Bool
  catchupAttempts : Int
  catchupSuccesses : Int
  catchupFailures : Int
  catchupLastAttempt : Int
  catchupLastSuccess : Int
  catchupLastFailure : Int
  catchupReputationScore : ℚ
  catchupMaliciousCount : Int
  catchupAvgResponseMS : Int
  deriving DecidableEq, Repr

/-- `CachedPeerMetrics`: one peer entry of the snapshot file. -/
structure CachedPeerMetrics where
  catchupAttempts : Int
  catchupSuccesses : Int
  catchupFailures : Int
  catchupLastAttempt : Int
  catchupLastSuccess : Int
  catchupLastFailure : Int
  catchupReputationScore : ℚ
  catchupMaliciousCount : Int
  catchupAvgResponseMS : Int
  height : Int
  blockHash : String
  dataHubURL : String
  deriving DecidableEq, Repr

/-- `PeerRegistryCache`: the parsed snapshot document. -/
structure PeerRegistryCache where
  version : String
  peers : List (String × CachedPeerMetrics)
  deriving DecidableEq, Repr

/-- `PeerRegistryCacheVersion` constant. -/
def peerRegistryCacheVersion : String := "1.0"

/-- Conversion of a registry record to a snapshot entry
(`SavePeerRegistryCache` body of the loop). -/
def toCachedMetrics (info : PeerInfo) : CachedPeerMetrics :=
  { catchupAttempts := info.catchupAttempts
    catchupSuccesses := info.catchupSuccesses
    catchupFailures := info.catchupFailures
    catchupLastAttempt := info.catchupLastAttempt
    catchupLastSuccess := info.catchupLastSuccess
    catchupLastFailure := info.catchupLastFailure
    catchupReputationScore := info.catchupReputationScore
    catchupMaliciousCount := info.catchupMaliciousCount
    catchupAvgResponseMS := info.catchupAvgResponseMS
    height := info.height
    blockHash := info.blockHash
    dataHubURL := info.dataHubURL }

/-- The pruning condition of `SavePeerRegistryCache`: only peers with
meaningful metrics are written. -/
def saveWorthy (info : PeerInfo) : Prop :=
  info.catchupAttempts > 0 ∨ info.dataHubURL ≠ "" ∨ info.height > 0

instance (info : PeerInfo) : Decidable (saveWorthy info) := by
  unfold saveWorthy; infer_instance

/-- `SavePeerRegistryCache`: the `peers` map written to the snapshot,
from the registry content (the marshalling, temp file and rename are I/O and
not modelled). -/
def savePeerEntries (peers : List (String × PeerInfo)) :
    List (String × CachedPeerMetrics) :=
  peers.filterMap (fun p =>
    if saveWorthy p.2 then some (p.1, toCachedMetrics p.2) else none)

/-- The registry content is an association list from peer id to record. -/
def regFind (reg : List (String × PeerInfo)) (id : String) : Option PeerInfo :=
  match reg with
  | [] => none
  | (k, v) :: rest => if k = id then some v else regFind rest id

/-- Store a record under an id, replacing an existing binding. -/
def regStore (reg : List (String × PeerInfo)) (id : String) (info : PeerInfo) :
    List (String × PeerInfo) :=
  match reg with
  | [] => [(id, info)]
  | (k, v) :: rest =>
      if k = id then (k, info) :: rest else (k, v) :: regStore rest id info

/-- The record `LoadPeerRegistryCache` creates when the peer id is absent:
height, block hash and DataHub URL from the snapshot entry, `IsHealthy` true,
everything else zero. -/
def freshPeerFromCache (id : String) (m : CachedPeerMetrics) : PeerInfo :=
  { id := id
    height := m.height
    blockHash := m.blockHash
    dataHubURL := m.dataHubURL
    isHealthy := true
    isBanned := false
    catchupAttempts := 0
    catchupSuccesses := 0
    catchupFailures := 0
    catchupLastAttempt := 0
    catchupLastSuccess := 0
    catchupLastFailure := 0
    catchupReputationScore := 0
    catchupMaliciousCount := 0
    catchupAvgResponseMS := 0 }

/-- `LoadPeerRegistryCache` per-entry merge: look up (or create) the record,
copy the catchup metrics verbatim, then restore the DataHub URL only when the
live one is empty, and the height (with block hash) only when the live height
is zero. -/
def applyCachedMetrics (live : Option PeerInfo) (id : String)
    (m : CachedPeerMetrics) : PeerInfo :=
  let info :=
    match live with
    | some i => i
    | none => freshPeerFromCache id m
  let info :=
    { info with
        catchupAttempts := m.catchupAttempts
        catchupSuccesses := m.catchupSuccesses
        catchupFailures := m.catchupFailures
        catchupLastAttempt := m.catchupLastAttempt
        catchupLastSuccess := m.catchupLastSuccess
        catchupLastFailure := m.catchupLastFailure
        catchupReputationScore := m.catchupReputationScore
        catchupMaliciousCount := m.catchupMaliciousCount
        catchupAvgResponseMS := m.catchupAvgResponseMS }
  let info :=
    if info.dataHubURL = "" ∧ m.dataHubURL ≠ "" then
      { info with dataHubURL := m.dataHubURL }
    else info
  if info.height = 0 ∧ m.height > 0 then
    { info with height := m.height, blockHash := m.blockHash }
  else info

/-- Merge every snapshot entry into the registry, in file order. -/
def loadMergePeers (reg : List (String × PeerInfo))
    (entries : List (String × CachedPeerMetrics)) : List (String × PeerInfo) :=
  entries.foldl
    (fun r e => regStore r e.1 (applyCachedMetrics (regFind r e.1) e.1 e.2)) reg

/-- Outcome of `LoadPeerRegistryCache`. -/
inductive LoadResult where
  | ok : LoadResult
  | parseError : LoadResult
  | versionMismatch : LoadResult
  deriving DecidableEq, Repr

/-- `LoadPeerRegistryCache` over the file contents: `none` = the file does
not exist (not an error, no mutation); `some none` = the file exists but its
JSON fails to parse; `some (some cache)` = the parsed document.  Returns the
new registry content together with the outcome. -/
def loadPeerRegistryCache (reg : List (String × PeerInfo))
    (file : Option (Option PeerRegistryCache)) :
    List (String × PeerInfo) × LoadResult :=
  match file with
  | none => (reg, LoadResult.ok)
  | some none => (reg, LoadResult.parseError)
  | some (some cache) =>
      if cache.version ≠ peerRegistryCacheVersion then
        (reg, LoadResult.versionMismatch)
      else
        (loadMergePeers reg cache.peers, LoadResult.ok)

/-! ## Reputation engine -/

/-- Modelled from the spec: the reputation engine
(`calculateReputationScore`) is not among the provided source files, only its
callers and tests are.  Spec §4.3: with `total = successes + failures`, the
score is 50 when `total = 0`, otherwise
`success_rate × 0.6 + 50 × 0.4` with `success_rate = successes / total × 100`;
subtract `min(malicious_count × 20, 50)`; add 10 when `last_success ≠ 0` and
`now − last_success < 1 hour`; clamp to `[0, 100]`.  Times are in seconds. -/
def calculateReputationScore (successes failures malicious : Nat)
    (lastSuccess now : Int) : ℚ :=
  let total : Nat := successes + failures
  let base : ℚ :=
    if total = 0 then 50
    else (successes : ℚ) / (total : ℚ) * 100 * (6 / 10) + 50 * (4 / 10)
  let penalized : ℚ := base - min ((malicious : ℚ) * 20) 50
  let withRecency : ℚ :=
    if lastSuccess ≠ 0 ∧ now - lastSuccess < 3600 then penalized + 10
    else penalized
  max 0 (min 100 withRecency)

/-! ## Catchup peer selection (services/blockvalidation, part_001)

`Server.selectBestPeersForCatchup` asks the P2P service for candidate peers
(`GetPeersForCatchup`), converts the proto records, filters by target height,
health and DataHub URL, and sorts with `sort.Slice` under a two-key
comparator.  We model `sort.Slice`, whose contract is "some permutation of
the slice that is sorted w.r.t. the comparator", by `List.insertionSort`. -/

/-- Proto record `p2p_api.PeerInfoForCatchup` (note: it carries no ban
flag — ban information does not cross this API). -/
structure ProtoPeerForCatchup where
  id : String
  height : Int
  blockHash : String
  dataHubUrl : String
  isHealthy : Bool
  catchupReputationScore : ℚ
  catchupAttempts : Int
  catchupSuccesses : Int
  catchupFailures : Int
  deriving DecidableEq, Repr

/-- Conversion done by the p2p server `GetPeersForCatchup` handler for each
registry record it returns. -/
def toProtoPeer (p : PeerInfo) : ProtoPeerForCatchup :=
  { id := p.id
    height := p.height
    blockHash := p.blockHash
    dataHubUrl := p.dataHubURL
    isHealthy := p.isHealthy
    catchupReputationScore := p.catchupReputationScore
    catchupAttempts := p.catchupAttempts
    catchupSuccesses := p.catchupSuccesses
    catchupFailures := p.catchupFailures }

/-- Modelled from the spec: `PeerRegistry.GetPeersForCatchup` is not among
the provided source files (only its gRPC wrapper is).  Spec §4.4: it filters
out any peer that is banned, unhealthy, or missing a DataHub URL.  The
height filter and the ordering are re-established by the block-validation
server, whose code is in the sources, so they are not modelled here. -/
def registryPeersForCatchup (peers : List PeerInfo) : List PeerInfo :=
  peers.filter (fun p => !p.isBanned && p.isHealthy && !(p.dataHubURL == ""))

/-- Internal record `blockvalidation.PeerForCatchup`. -/
structure PeerForCatchup where
  id : String
  dataHubURL : String
  height : Int
  blockHash : String
  isHealthy : Bool
  catchupReputationScore : ℚ
  catchupAttempts : Int
  catchupSuccesses : Int
  catchupFailures : Int
  deriving DecidableEq, Repr

/-- Proto-to-internal conversion in `selectBestPeersForCatchup`. -/
def toPeerForCatchup (p : ProtoPeerForCatchup) : PeerForCatchup :=
  { id := p.id
    dataHubURL := p.dataHubUrl
    height := p.height
    blockHash := p.blockHash
    isHealthy := p.isHealthy
    catchupReputationScore := p.catchupReputationScore
    catchupAttempts := p.catchupAttempts
    catchupSuccesses := p.catchupSuccesses
    catchupFailures := p.catchupFailures }

/-- The filter loop of `selectBestPeersForCatchup`: drop peers below the
target height, unhealthy peers, and peers without a DataHub URL. -/
def serverFilterPeers (targetHeight : Int) (ps : List ProtoPeerForCatchup) :
    List PeerForCatchup :=
  ps.filterMap (fun p =>
    if p.height < targetHeight then none
    else if !p.isHealthy then none
    else if p.dataHubUrl == "" then none
    else some (toPeerForCatchup p))

/-- Success rate as the comparator computes it: `successes / attempts`,
`0` when `attempts` is not positive. -/
def codeSuccessRate (p : PeerForCatchup) : ℚ :=
  if p.catchupAttempts > 0 then (p.catchupSuccesses : ℚ) / (p.catchupAttempts : ℚ)
  else 0

/-- The `sort.Slice` comparator of `selectBestPeersForCatchup`: reputation
score descending, then success rate (`successes/attempts`) descending. -/
def codeLess (a b : PeerForCatchup) : Bool :=
  if a.catchupReputationScore ≠ b.catchupReputationScore then
    decide (a.catchupReputationScore > b.catchupReputationScore)
  else
    decide (codeSuccessRate a > codeSuccessRate b)

/-- `a` may precede `b` in the sorted output (the `sort.Slice`
postcondition relation): `b` is not strictly ahead of `a`. -/
def codeLE (a b : PeerForCatchup) : Prop := ¬ codeLess b a = true

instance : DecidableRel codeLE := fun _ _ => instDecidableNot

/-- `selectBestPeersForCatchup` on an already-fetched proto peer list:
filter, then sort by the two-key comparator. -/
def selectBestPeersForCatchup (targetHeight : Int)
    (ps : List ProtoPeerForCatchup) : List PeerForCatchup :=
  List.insertionSort codeLE (serverFilterPeers targetHeight ps)

/-- The whole selection pipeline: registry-side catchup filter (modelled
from the spec), proto conversion, then the server-side filter and sort. -/
def selectFromRegistry (targetHeight : Int) (peers : List PeerInfo) :
    List PeerForCatchup :=
  selectBestPeersForCatchup targetHeight
    ((registryPeersForCatchup peers).map toProtoPeer)

/-- Success rate as the claimed four-key order computes it:
`successes / (successes + failures)`, `0` on a zero denominator. -/
def specSuccessRate (p : PeerForCatchup) : ℚ :=
  if p.catchupSuccesses + p.catchupFailures > 0 then
    (p.catchupSuccesses : ℚ) / ((p.catchupSuccesses + p.catchupFailures : Int) : ℚ)
  else 0

/-- `a` strictly precedes `b` under the first two keys of the claimed
four-key order: higher reputation score, then higher
`successes/(successes+failures)` success rate. -/
def specStrictBefore (a b : PeerForCatchup) : Bool :=
  decide (a.catchupReputationScore > b.catchupReputationScore) ||
    (decide (a.catchupReputationScore = b.catchupReputationScore) &&
      decide (specSuccessRate a > specSuccessRate b))

/-- Necessary condition for a list to be sorted by the claimed four-key
order: no later element strictly precedes an earlier one under the first two
keys (the third and fourth keys only break ties of the first two, so every
four-key-sorted list satisfies this). -/
def specFirstTwoKeysSorted (l : List PeerForCatchup) : Prop :=
  l.Pairwise (fun a b => specStrictBefore b a = false)

/-! ## Reporting RPC handlers (services/p2p, part_004 / part_006)

Each handler first checks that the peer registry is initialized, returning a
service error otherwise, then decodes the peer id, returning a processing
error ("invalid peer ID") on failure.  `peer.Decode` is external; its result
is passed in as `Option String` (`none` = the id string fails to decode).
`GetPeerRegistry` takes no peer id; with a nil registry it returns an empty
peer list and a nil error. -/

/-- Error kinds produced by the reporting RPC handlers: a service error for
an uninitialized registry ("service unavailable" at the transport), or an
invalid peer id error ("invalid argument" at the transport). -/
inductive RpcError where
  | notInitialized : RpcError
  | invalidPeerId : RpcError
  deriving DecidableEq, Repr

/-- Shared structure of the five reporting handlers: registry check, then
peer id decode check, then the registry call succeeds. -/
def reportingRpc (registryInitialized : Bool) (decodedPeerId : Option String) :
    Option RpcError × Bool :=
  if !registryInitialized then (some RpcError.notInitialized, false)
  else
    match decodedPeerId with
    | none => (some RpcError.invalidPeerId, false)
    | some _ => (none, true)

/-- `Server.RecordCatchupAttempt`: ok flag and error of the gRPC response. -/
def recordCatchupAttemptRPC (registryInitialized : Bool)
    (decodedPeerId : Option String) : Option RpcError × Bool :=
  reportingRpc registryInitialized decodedPeerId

/-- `Server.RecordCatchupSuccess` (the duration does not affect the error
path). -/
def recordCatchupSuccessRPC (registryInitialized : Bool)
    (decodedPeerId : Option String) (durationMs : Int) : Option RpcError × Bool :=
  let _ := durationMs
  reportingRpc registryInitialized decodedPeerId

/-- `Server.RecordCatchupFailure`. -/
def recordCatchupFailureRPC (registryInitialized : Bool)
    (decodedPeerId : Option String) : Option RpcError × Bool :=
  reportingRpc registryInitialized decodedPeerId

/-- `Server.RecordCatchupMalicious`. -/
def recordCatchupMaliciousRPC (registryInitialized : Bool)
    (decodedPeerId : Option String) : Option RpcError × Bool :=
  reportingRpc registryInitialized decodedPeerId

/-- `Server.UpdateCatchupReputation` (the score does not affect the error
path). -/
def updateCatchupReputationRPC (registryInitialized : Bool)
    (decodedPeerId : Option String) (score : ℚ) : Option RpcError × Bool :=
  let _ := score
  reportingRpc registryInitialized decodedPeerId

/-- `Server.GetPeerRegistry`: with a nil registry it returns an empty list
and a nil error; otherwise all registry records, with no error. -/
def getPeerRegistryRPC (registry : Option (List (String × PeerInfo))) :
    List PeerInfo × Option RpcError :=
  match registry with
  | none => ([], none)
  | some peers => (peers.map (fun p => p.2), none)

/-! ## Recorder facade helpers
(services/blockvalidation/peer_metrics_helpers.go)

Each helper returns immediately on an empty peer id; otherwise it calls the
P2P client when one is present, and falls back to the local peer-metrics
cache when the client is absent or the remote call fails.  The local metrics
internals are outside the provided sources; a minimal counter record
suffices, since the verified property is that they are left untouched. -/

/-- Local per-peer metrics entry (fallback cache). -/
structure LocalPeerMetric where
  successes : Nat
  failures : Nat
  malicious : Nat
  deriving DecidableEq, Repr

/-- `GetOrCreatePeerMetrics` followed by a mutation `f`: update the entry in
place, creating a zero entry first when the id is absent. -/
def updateLocalMetrics (ms : List (String × LocalPeerMetric)) (id : String)
    (f : LocalPeerMetric → LocalPeerMetric) : List (String × LocalPeerMetric) :=
  match ms with
  | [] => [(id, f ⟨0, 0, 0⟩)]
  | (k, v) :: rest =>
      if k = id then (k, f v) :: rest else (k, v) :: updateLocalMetrics rest id f

/-- Environment a facade helper runs in: whether a P2P client exists,
whether its call fails, and the local metrics cache (`none` = nil
`peerMetrics`). -/
structure ReportEnv where
  hasClient : Bool
  remoteFails : Bool
  metrics : Option (List (String × LocalPeerMetric))
  deriving DecidableEq, Repr

/-- Outcome of a facade helper: whether the remote registry was called, and
the local metrics cache afterwards.  The helpers return no error (void). -/
structure ReportOutcome where
  remoteCalled : Bool
  metrics : Option (List (String × LocalPeerMetric))
  deriving DecidableEq, Repr

/-- Local fallback shared by the helpers: mutate the metrics entry when the
cache exists, do nothing when it is nil. -/
def localFallback (env : ReportEnv) (peerID : String)
    (f : LocalPeerMetric → LocalPeerMetric) :
    Option (List (String × LocalPeerMetric)) :=
  match env.metrics with
  | none => none
  | some ms => some (updateLocalMetrics ms peerID f)

/-- `Server.reportCatchupAttempt` (no local fallback counter exists for
attempts; the fallback branch is a comment in the source). -/
def reportCatchupAttempt (env : ReportEnv) (peerID : String) : ReportOutcome :=
  if peerID = "" then ⟨false, env.metrics⟩
  else if env.hasClient then ⟨true, env.metrics⟩
  else ⟨false, env.metrics⟩

/-- `Server.reportCatchupSuccess` (the duration only feeds the remote call). -/
def reportCatchupSuccess (env : ReportEnv) (peerID : String)
    (durationMs : Int) : ReportOutcome :=
  let _ := durationMs
  if peerID = "" then ⟨false, env.metrics⟩
  else if env.hasClient then
    if env.remoteFails then
      ⟨true, localFallback env peerID (fun m => { m with successes := m.successes + 1 })⟩
    else ⟨true, env.metrics⟩
  else ⟨false, localFallback env peerID (fun m => { m with successes := m.successes + 1 })⟩

/-- `Server.reportCatchupFailure`. -/
def reportCatchupFailure (env : ReportEnv) (peerID : String) : ReportOutcome :=
  if peerID = "" then ⟨false, env.metrics⟩
  else if env.hasClient then
    if env.remoteFails then
      ⟨true, localFallback env peerID (fun m => { m with failures := m.failures + 1 })⟩
    else ⟨true, env.metrics⟩
  else ⟨false, localFallback env peerID (fun m => { m with failures := m.failures + 1 })⟩

/-- `Server.reportCatchupMalicious` (the reason string is only logged). -/
def reportCatchupMalicious (env : ReportEnv) (peerID : String)
    (reason : String) : ReportOutcome :=
  let _ := reason
  if peerID = "" then ⟨false, env.metrics⟩
  else if env.hasClient then
    if env.remoteFails then
      ⟨true, localFallback env peerID (fun m => { m with malicious := m.malicious + 1 })⟩
    else ⟨true, env.metrics⟩
  else ⟨false, localFallback env peerID (fun m => { m with malicious := m.malicious + 1 })⟩

/-! ## Sample records used in concrete witnesses and counterexamples -/

/-- A registry record exactly as `AddPeer` creates it: no attempts, no
DataHub URL, zero height. -/
def blankPeer : PeerInfo :=
  { id := "p", height := 0, blockHash := "", dataHubURL := "",
    isHealthy := true, isBanned := false, catchupAttempts := 0,
    catchupSuccesses := 0, catchupFailures := 0, catchupLastAttempt := 0,
    catchupLastSuccess := 0, catchupLastFailure := 0,
    catchupReputationScore := 50, catchupMaliciousCount := 0,
    catchupAvgResponseMS := 0 }

/-- A live registry record with DataHub URL `http://b` and height 7. -/
def livePeerB : PeerInfo :=
  { id := "p", height := 7, blockHash := "live", dataHubURL := "http://b",
    isHealthy := true, isBanned := false, catchupAttempts := 0,
    catchupSuccesses := 0, catchupFailures := 0, catchupLastAttempt := 0,
    catchupLastSuccess := 0, catchupLastFailure := 0,
    catchupReputationScore := 50, catchupMaliciousCount := 0,
    catchupAvgResponseMS := 0 }

/-- A snapshot entry with counters, URL `http://a` and height 9. -/
def snapMetricsA : CachedPeerMetrics :=
  { catchupAttempts := 3, catchupSuccesses := 2, catchupFailures := 1,
    catchupLastAttempt := 11, catchupLastSuccess := 12,
    catchupLastFailure := 13, catchupReputationScore := 90,
    catchupMaliciousCount := 0, catchupAvgResponseMS := 120, height := 9,
    blockHash := "snap", dataHubURL := "http://a" }

/-- A snapshot entry carrying the out-of-range reputation score 150. -/
def snapMetricsOverScore : CachedPeerMetrics :=
  { catchupAttempts := 1, catchupSuccesses := 1, catchupFailures := 0,
    catchupLastAttempt := 0, catchupLastSuccess := 0, catchupLastFailure := 0,
    catchupReputationScore := 150, catchupMaliciousCount := 0,
    catchupAvgResponseMS := 0, height := 0, blockHash := "",
    dataHubURL := "http://x" }

/-- A healthy, unbanned registry record at height 10 with a DataHub URL. -/
def goodPeerA : PeerInfo :=
  { id := "a", height := 10, blockHash := "h", dataHubURL := "http://a",
    isHealthy := true, isBanned := false, catchupAttempts := 4,
    catchupSuccesses := 2, catchupFailures := 2, catchupLastAttempt := 0,
    catchupLastSuccess := 0, catchupLastFailure := 0,
    catchupReputationScore := 50, catchupMaliciousCount := 0,
    catchupAvgResponseMS := 0 }

/-- Proto peer X of the ordering counterexample: score 50, 3 successes and
1 failure out of 12 attempts (comparator rate 1/4, claimed rate 3/4). -/
def protoPeerX : ProtoPeerForCatchup :=
  { id := "a", height := 10, blockHash := "h", dataHubUrl := "http://a",
    isHealthy := true, catchupReputationScore := 50, catchupAttempts := 12,
    catchupSuccesses := 3, catchupFailures := 1 }

/-- Proto peer Y of the ordering counterexample: score 50, 2 successes and
2 failures out of 4 attempts (comparator rate 1/2, claimed rate 1/2). -/
def protoPeerY : ProtoPeerForCatchup :=
  { id := "b", height := 10, blockHash := "h", dataHubUrl := "http://b",
    isHealthy := true, catchupReputationScore := 50, catchupAttempts := 4,
    catchupSuccesses := 2, catchupFailures := 2 }

theorem stepOp_generation {κ ν : Type} [DecidableEq κ] (gc : GenCache κ ν)
    (op : CacheOp κ ν) :
    (gc.stepOp op).generation =
      gc.generation + (match op with
                       | CacheOp.deleteAll => 1
                       | CacheOp.setOp _ _ _ _ => 0) := by
  cases op with
  | deleteAll => rfl
  | setOp q v ttl now =>
      simp only [GenCache.stepOp, GenCache.querySet]
      split <;> rfl

/-- The generation after an interleaving is the starting generation plus the
number of `DeleteAll` calls: only `DeleteAll` touches the counter. -/
theorem runOps_generation {κ ν : Type} [DecidableEq κ] (gc : GenCache κ ν)
    (ops : List (CacheOp κ ν)) :
    (gc.runOps ops).generation = gc.generation + countDeleteAll ops := by
  induction ops generalizing gc with
  | nil => rfl
  | cons op ops ih =>
      cases op with
      | deleteAll =>
          simp only [GenCache.runOps, countDeleteAll]
          rw [ih]
          simp [GenCache.stepOp, GenCache.deleteAll]
          omega
      | setOp q v ttl now =>
          simp only [GenCache.runOps, countDeleteAll]
          rw [ih, stepOp_generation]
          simp

/-- C1: after `BeginQuery`, `Set` succeeds and inserts `v` with expiry
`now + ttl` when the interleaving contains no `DeleteAll`, and returns
`false` leaving the cache unchanged when it contains at least one. -/
theorem querySet_after_interleaving {κ ν : Type} [DecidableEq κ]
    (gc : GenCache κ ν) (k : κ) (ops : List (CacheOp κ ν)) (v : ν) (ttl now : Nat) :
    (countDeleteAll ops = 0 →
      ((GenCache.runOps gc ops).querySet (gc.beginQuery k) v ttl now).2 = true ∧
      ((GenCache.runOps gc ops).querySet (gc.beginQuery k) v ttl now).1.entries k =
        some (v, now + ttl)) ∧
    (0 < countDeleteAll ops →
      ((GenCache.runOps gc ops).querySet (gc.beginQuery k) v ttl now).2 = false ∧
      ((GenCache.runOps gc ops).querySet (gc.beginQuery k) v ttl now).1 =
        GenCache.runOps gc ops) := by
  constructor
  · intro h0
    have hgen : gc.generation = (GenCache.runOps gc ops).generation := by
      simp [runOps_generation, h0]
    constructor
    · simp [GenCache.querySet, GenCache.beginQuery, hgen]
    · simp [GenCache.querySet, GenCache.beginQuery, hgen]
  · intro hpos
    have hgen : ¬ gc.generation = (GenCache.runOps gc ops).generation := by
      simp only [runOps_generation]
      omega
    constructor
    · simp [GenCache.querySet, GenCache.beginQuery, hgen]
    · simp [GenCache.querySet, GenCache.beginQuery, hgen]

/-- Witness for C1 at a concrete cache: with no interleaved operation the
write is accepted and lands with expiry `now + ttl`; with one `DeleteAll`
in between it is rejected and the cache is left as the `DeleteAll` left it. -/
theorem querySet_after_interleaving_witness :
    (((GenCache.runOps (⟨fun _ => none, 0⟩ : GenCache Nat Nat) []).querySet
        ((⟨fun _ => none, 0⟩ : GenCache Nat Nat).beginQuery 7) 42 100 5).2 = true ∧
      ((GenCache.runOps (⟨fun _ => none, 0⟩ : GenCache Nat Nat) []).querySet
        ((⟨fun _ => none, 0⟩ : GenCache Nat Nat).beginQuery 7) 42 100 5).1.entries 7 =
        some (42, 105)) ∧
    (((GenCache.runOps (⟨fun _ => none, 0⟩ : GenCache Nat Nat)
          [CacheOp.deleteAll]).querySet
        ((⟨fun _ => none, 0⟩ : GenCache Nat Nat).beginQuery 7) 42 100 5).2 = false) := by
  refine ⟨?_, ?_⟩
  · have h := (querySet_after_interleaving (⟨fun _ => none, 0⟩ : GenCache Nat Nat)
      7 [] 42 100 5).1 (by decide)
    exact ⟨h.1, by simpa using h.2⟩
  · exact ((querySet_after_interleaving (⟨fun _ => none, 0⟩ : GenCache Nat Nat)
      7 [CacheOp.deleteAll] 42 100 5).2 (by decide)).1

/-- Helper: membership in the saved snapshot entries. -/
theorem mem_savePeerEntries (peers : List (String × PeerInfo))
    (e : String × CachedPeerMetrics) :
    e ∈ savePeerEntries peers ↔
      ∃ p ∈ peers, saveWorthy p.2 ∧ e = (p.1, toCachedMetrics p.2) := by
  unfold savePeerEntries
  rw [List.mem_filterMap]
  constructor
  · rintro ⟨a, ha, hfa⟩
    by_cases h : saveWorthy a.2
    · rw [if_pos h] at hfa
      exact ⟨a, ha, h, (Option.some_inj.mp hfa).symm⟩
    · rw [if_neg h] at hfa
      cases hfa
  · rintro ⟨a, ha, h, he⟩
    exact ⟨a, ha, by rw [if_pos h, he]⟩

/-- Helper: in a registry with no duplicate peer ids, a key determines its
record. -/
theorem assoc_key_unique {l : List (String × PeerInfo)}
    (h : (l.map Prod.fst).Nodup) {k : String} {v w : PeerInfo}
    (hv : (k, v) ∈ l) (hw : (k, w) ∈ l) : v = w := by
  induction l with
  | nil => cases hv
  | cons a l ih =>
      rcases List.mem_cons.mp hv with hv1 | hv1 <;>
        rcases List.mem_cons.mp hw with hw1 | hw1
      · rw [← hv1] at hw1
        exact congrArg Prod.snd hw1.symm
      · exfalso
        have : k ∈ l.map Prod.fst := List.mem_map.mpr ⟨(k, w), hw1, rfl⟩
        rw [← hv1] at h
        exact (List.nodup_cons.mp h).1 this
      · exfalso
        have : k ∈ l.map Prod.fst := List.mem_map.mpr ⟨(k, v), hv1, rfl⟩
        rw [← hw1] at h
        exact (List.nodup_cons.mp h).1 this
      · exact ih (List.nodup_cons.mp h).2 hv1 hw1

/-- C7: `SavePeerRegistryCache` writes a snapshot entry exactly for the
records with `attempts > 0`, a non-empty DataHub URL, or `height > 0`; in a
registry with unique ids, a record with none of these (as created by
`AddPeer` and never updated) leaves no entry for its peer id. -/
theorem savePeerEntries_iff_meaningful (peers : List (String × PeerInfo)) :
    (∀ e : String × CachedPeerMetrics,
      e ∈ savePeerEntries peers ↔
        ∃ p ∈ peers, saveWorthy p.2 ∧ e = (p.1, toCachedMetrics p.2)) ∧
    (∀ id info, (id, info) ∈ peers → ¬ saveWorthy info →
      (peers.map Prod.fst).Nodup →
      ∀ m : CachedPeerMetrics, (id, m) ∉ savePeerEntries peers) := by
  refine ⟨mem_savePeerEntries peers, ?_⟩
  intro id info hmem hnw hnd m hin
  rcases (mem_savePeerEntries peers (id, m)).mp hin with ⟨p, hp, hw, he⟩
  have hfst : p.1 = id := (congrArg Prod.fst he).symm
  have : p.2 = info := by
    refine assoc_key_unique hnd ?_ hmem
    rw [← hfst]
    exact hp
  rw [this] at hw
  exact hnw hw

/-- Witness for C7: a record exactly as `AddPeer` creates it (no attempts,
no URL, zero height) leaves no snapshot entry for its peer id. -/
theorem savePeerEntries_iff_meaningful_witness :
    ("p", blankPeer) ∈ [("p", blankPeer)] ∧
    ∀ m : CachedPeerMetrics, ("p", m) ∉ savePeerEntries [("p", blankPeer)] := by
  constructor
  · exact List.mem_singleton.mpr rfl
  · intro m
    exact (savePeerEntries_iff_meaningful _).2 "p" blankPeer
      (List.mem_singleton.mpr rfl) (by decide) (by decide) m

/-- C6: a snapshot whose JSON fails to parse, or whose version differs from
the constant `"1.0"`, makes `LoadPeerRegistryCache` return the matching
error with the registry completely unchanged. -/
theorem loadPeerRegistryCache_error_atomic
    (reg : List (String × PeerInfo)) (cache : PeerRegistryCache) :
    loadPeerRegistryCache reg (some none) = (reg, LoadResult.parseError) ∧
    (cache.version ≠ peerRegistryCacheVersion →
      loadPeerRegistryCache reg (some (some cache)) =
        (reg, LoadResult.versionMismatch)) := by
  refine ⟨rfl, fun h => ?_⟩
  simp [loadPeerRegistryCache, h]

/-- Witness for C6 at a version-0.9 snapshot and a one-record registry. -/
theorem loadPeerRegistryCache_error_atomic_witness :
    loadPeerRegistryCache [] (some (some ⟨"0.9", []⟩)) =
      ([], LoadResult.versionMismatch) :=
  (loadPeerRegistryCache_error_atomic [] ⟨"0.9", []⟩).2 (by decide)

/-- C5: the per-entry merge of `LoadPeerRegistryCache`: counters and derived
metrics are taken verbatim from the snapshot; the DataHub URL is restored
only when the live one is empty, height and block hash only when the live
height is zero; an already-set live URL or nonzero live height survives; an
absent peer id yields a fresh record built from the snapshot entry (with
`IsHealthy` true). -/
theorem applyCachedMetrics_merge (live : PeerInfo) (id : String)
    (m : CachedPeerMetrics) :
    ((applyCachedMetrics (some live) id m).catchupAttempts = m.catchupAttempts ∧
     (applyCachedMetrics (some live) id m).catchupSuccesses = m.catchupSuccesses ∧
     (applyCachedMetrics (some live) id m).catchupFailures = m.catchupFailures ∧
     (applyCachedMetrics (some live) id m).catchupLastAttempt = m.catchupLastAttempt ∧
     (applyCachedMetrics (some live) id m).catchupLastSuccess = m.catchupLastSuccess ∧
     (applyCachedMetrics (some live) id m).catchupLastFailure = m.catchupLastFailure ∧
     (applyCachedMetrics (some live) id m).catchupReputationScore =
       m.catchupReputationScore ∧
     (applyCachedMetrics (some live) id m).catchupMaliciousCount =
       m.catchupMaliciousCount ∧
     (applyCachedMetrics (some live) id m).catchupAvgResponseMS =
       m.catchupAvgResponseMS ∧
     (applyCachedMetrics (some live) id m).dataHubURL =
       (if live.dataHubURL = "" ∧ m.dataHubURL ≠ "" then m.dataHubURL
        else live.dataHubURL) ∧
     (applyCachedMetrics (some live) id m).height =
       (if live.height = 0 ∧ m.height > 0 then m.height else live.height) ∧
     (applyCachedMetrics (some live) id m).blockHash =
       (if live.height = 0 ∧ m.height > 0 then m.blockHash else live.blockHash) ∧
     (live.dataHubURL ≠ "" →
       (applyCachedMetrics (some live) id m).dataHubURL = live.dataHubURL) ∧
     (live.height ≠ 0 →
       (applyCachedMetrics (some live) id m).height = live.height ∧
       (applyCachedMetrics (some live) id m).blockHash = live.blockHash)) ∧
    applyCachedMetrics none id m =
      { id := id, height := m.height, blockHash := m.blockHash,
        dataHubURL := m.dataHubURL, isHealthy := true, isBanned := false,
        catchupAttempts := m.catchupAttempts,
        catchupSuccesses := m.catchupSuccesses,
        catchupFailures := m.catchupFailures,
        catchupLastAttempt := m.catchupLastAttempt,
        catchupLastSuccess := m.catchupLastSuccess,
        catchupLastFailure := m.catchupLastFailure,
        catchupReputationScore := m.catchupReputationScore,
        catchupMaliciousCount := m.catchupMaliciousCount,
        catchupAvgResponseMS := m.catchupAvgResponseMS } := by
  constructor
  · unfold applyCachedMetrics
    dsimp only
    split_ifs with h1 h2 h2 <;> simp_all
  · unfold applyCachedMetrics freshPeerFromCache
    dsimp only
    split_ifs with h1 h2 h2 <;> simp_all

/-- Witness for C5: a live record with URL `http://b` and height 7 keeps
both across a merge that restores counters from a snapshot carrying URL
`http://a` and height 9. -/
theorem applyCachedMetrics_merge_witness :
    (applyCachedMetrics (some livePeerB) "p" snapMetricsA).dataHubURL = "http://b" ∧
    (applyCachedMetrics (some livePeerB) "p" snapMetricsA).height = 7 := by
  have h := applyCachedMetrics_merge livePeerB "p" snapMetricsA
  exact ⟨h.1.2.2.2.2.2.2.2.2.2.2.2.2.1 (by decide),
    (h.1.2.2.2.2.2.2.2.2.2.2.2.2.2 (by decide)).1⟩

/-- C10: a record created by `LoadPeerRegistryCache` for an absent peer id
has `IsHealthy` set to true, so it passes the health test of the catchup
selection filter without a live health check. -/
theorem loadCreatedPeer_isHealthy (id : String) (m : CachedPeerMetrics) :
    (applyCachedMetrics none id m).isHealthy = true ∧
    (!(toProtoPeer (applyCachedMetrics none id m)).isHealthy) = false := by
  unfold applyCachedMetrics freshPeerFromCache toProtoPeer
  dsimp only
  split_ifs <;> simp

/-- C9: each recorder facade helper, called with an empty peer id, makes no
remote call and leaves the local metrics cache untouched (the helpers return
no error in any case). -/
theorem reportHelpers_empty_peerID_noop (env : ReportEnv) (durationMs : Int)
    (reason : String) :
    reportCatchupAttempt env "" = ⟨false, env.metrics⟩ ∧
    reportCatchupSuccess env "" durationMs = ⟨false, env.metrics⟩ ∧
    reportCatchupFailure env "" = ⟨false, env.metrics⟩ ∧
    reportCatchupMalicious env "" reason = ⟨false, env.metrics⟩ := by
  refine ⟨rfl, rfl, rfl, rfl⟩

/-- C2 counterexample: `LoadPeerRegistryCache` restores the snapshot's
reputation score verbatim, so a version-1.0 snapshot storing score 150
produces a registry record observable with score 150 > 100. -/
theorem load_restores_out_of_bounds_score :
    (regFind (loadPeerRegistryCache []
        (some (some ⟨"1.0", [("p", snapMetricsOverScore)]⟩))).1 "p").map
      PeerInfo.catchupReputationScore = some 150 ∧
    (getPeerRegistryRPC (some (loadPeerRegistryCache []
        (some (some ⟨"1.0", [("p", snapMetricsOverScore)]⟩))).1)).1.map
      PeerInfo.catchupReputationScore = [150] ∧
    ¬ ((150 : ℚ) ≤ 100) := by
  refine ⟨by decide, by decide, by norm_num⟩

/-- C2 amended: every score the reputation engine computes lies in
`[0, 100]` (the final clamp guarantees it), while `LoadPeerRegistryCache`
copies the snapshot's stored score into the record verbatim — so a restored
record satisfies the bound exactly when the stored value does. -/
theorem reputationScore_bounds :
    (∀ (successes failures malicious : Nat) (lastSuccess now : Int),
        0 ≤ calculateReputationScore successes failures malicious lastSuccess now ∧
        calculateReputationScore successes failures malicious lastSuccess now ≤ 100) ∧
    (∀ (live : Option PeerInfo) (id : String) (m : CachedPeerMetrics),
        (applyCachedMetrics live id m).catchupReputationScore =
          m.catchupReputationScore) := by
  constructor
  · intro s f mal ls now
    unfold calculateReputationScore
    exact ⟨le_max_left _ _, max_le (by norm_num) (min_le_left _ _)⟩
  · intro live id m
    cases live <;>
      · unfold applyCachedMetrics freshPeerFromCache
        dsimp only
        split_ifs <;> rfl

/-- C8 counterexample: `GetPeerRegistry` called while the peer registry is
uninitialized returns an empty peer list with a nil error — not a
service-unavailable error as claimed. -/
theorem getPeerRegistry_uninitialized_no_error :
    getPeerRegistryRPC none = ([], none) ∧
    (getPeerRegistryRPC none).2 ≠ some RpcError.notInitialized := by
  exact ⟨rfl, by decide⟩

/-- C8 amended: the five record/update RPC handlers return a service error
when the registry is uninitialized and an invalid-peer-id (processing)
error when the peer id fails to decode, while `GetPeerRegistry` — which
takes no peer id — returns an empty list and no error on an uninitialized
registry. -/
theorem reportingRpcs_error_paths (dec : Option String) (pid : String)
    (durationMs : Int) (score : ℚ) :
    recordCatchupAttemptRPC false dec = (some RpcError.notInitialized, false) ∧
    recordCatchupSuccessRPC false dec durationMs =
      (some RpcError.notInitialized, false) ∧
    recordCatchupFailureRPC false dec = (some RpcError.notInitialized, false) ∧
    recordCatchupMaliciousRPC false dec = (some RpcError.notInitialized, false) ∧
    updateCatchupReputationRPC false dec score =
      (some RpcError.notInitialized, false) ∧
    recordCatchupAttemptRPC true none = (some RpcError.invalidPeerId, false) ∧
    recordCatchupSuccessRPC true none durationMs =
      (some RpcError.invalidPeerId, false) ∧
    recordCatchupFailureRPC true none = (some RpcError.invalidPeerId, false) ∧
    recordCatchupMaliciousRPC true none = (some RpcError.invalidPeerId, false) ∧
    updateCatchupReputationRPC true none score =
      (some RpcError.invalidPeerId, false) ∧
    recordCatchupAttemptRPC true (some pid) = (none, true) ∧
    getPeerRegistryRPC none = ([], none) := by
  exact ⟨rfl, rfl, rfl, rfl, rfl, rfl, rfl, rfl, rfl, rfl, rfl, rfl⟩

/-- Helper: the `sort.Slice` postcondition relation unfolded: `a` may stay
before `b` iff `b` does not have a strictly higher score, nor an equal score
with a strictly higher `successes/attempts` rate. -/
theorem codeLE_iff (a b : PeerForCatchup) :
    codeLE a b ↔
      (b.catchupReputationScore < a.catchupReputationScore ∨
        (b.catchupReputationScore = a.catchupReputationScore ∧
          codeSuccessRate b ≤ codeSuccessRate a)) := by
  unfold codeLE codeLess
  by_cases h : b.catchupReputationScore ≠ a.catchupReputationScore
  · rw [if_pos h]
    simp only [decide_eq_true_eq, gt_iff_lt, not_lt]
    constructor
    · intro hle
      exact Or.inl (lt_of_le_of_ne hle h)
    · rintro (hlt | ⟨heq, _⟩)
      · exact le_of_lt hlt
      · exact absurd heq h
  · push_neg at h
    rw [if_neg (fun hh => hh h)]
    simp only [decide_eq_true_eq, gt_iff_lt, not_lt]
    constructor
    · intro hle
      exact Or.inr ⟨h, hle⟩
    · rintro (hlt | ⟨_, hle⟩)
      · rw [h] at hlt
        exact absurd hlt (lt_irrefl _)
      · exact hle

instance : IsTotal PeerForCatchup codeLE where
  total a b := by
    rw [codeLE_iff, codeLE_iff]
    rcases lt_trichotomy a.catchupReputationScore b.catchupReputationScore with
      h | h | h
    · exact Or.inr (Or.inl h)
    · rcases le_total (codeSuccessRate b) (codeSuccessRate a) with hr | hr
      · exact Or.inl (Or.inr ⟨h.symm, hr⟩)
      · exact Or.inr (Or.inr ⟨h, hr⟩)
    · exact Or.inl (Or.inl h)

instance : IsTrans PeerForCatchup codeLE where
  trans a b c hab hbc := by
    rw [codeLE_iff] at hab hbc ⊢
    rcases hab with h1 | ⟨h1, r1⟩ <;> rcases hbc with h2 | ⟨h2, r2⟩
    · exact Or.inl (lt_trans h2 h1)
    · rw [h2]
      exact Or.inl h1
    · rw [← h1]
      exact Or.inl h2
    · exact Or.inr ⟨h2.trans h1, r2.trans r1⟩

/-- C4 counterexample: with two healthy peers of equal score — X with 3
successes and 1 failure out of 12 attempts, Y with 2 successes and 2
failures out of 4 attempts — the code orders Y before X (comparator rate
`successes/attempts`: 1/2 > 1/4), while the claimed order requires X before
Y (`successes/(successes+failures)`: 3/4 > 1/2), so the output violates the
claimed four-key order already at its second key. -/
theorem selectBestPeers_not_four_key_sorted :
    selectBestPeersForCatchup 0 [protoPeerX, protoPeerY] =
      [toPeerForCatchup protoPeerY, toPeerForCatchup protoPeerX] ∧
    ¬ specFirstTwoKeysSorted (selectBestPeersForCatchup 0 [protoPeerX, protoPeerY]) := by
  have hless : codeLess (toPeerForCatchup protoPeerY) (toPeerForCatchup protoPeerX) =
      true := by
    simp only [codeLess, codeSuccessRate, toPeerForCatchup, protoPeerX, protoPeerY]
    norm_num
  have hfilter : serverFilterPeers 0 [protoPeerX, protoPeerY] =
      [toPeerForCatchup protoPeerX, toPeerForCatchup protoPeerY] := by
    simp [serverFilterPeers, protoPeerX, protoPeerY]
  have hsel : selectBestPeersForCatchup 0 [protoPeerX, protoPeerY] =
      [toPeerForCatchup protoPeerY, toPeerForCatchup protoPeerX] := by
    unfold selectBestPeersForCatchup
    rw [hfilter]
    simp [List.insertionSort, List.orderedInsert, codeLE, hless]
  refine ⟨hsel, ?_⟩
  rw [hsel]
  have hbefore : specStrictBefore (toPeerForCatchup protoPeerX)
      (toPeerForCatchup protoPeerY) = true := by
    simp only [specStrictBefore, specSuccessRate, toPeerForCatchup, protoPeerX,
      protoPeerY]
    norm_num
  unfold specFirstTwoKeysSorted
  intro hpw
  have hx := (List.pairwise_cons.mp hpw).1 _ (List.mem_singleton.mpr rfl)
  rw [hbefore] at hx
  cases hx

/-- C4 amended: the returned list is a permutation of the filter survivors
that is sorted by the code's two-key comparator — reputation score
descending, ties by `successes/attempts` success rate descending; there is
no third or fourth key, and the relative order of peers tied on both keys
is unspecified (`sort.Slice` is not stable). -/
theorem selectBestPeers_sorted_two_keys (targetHeight : Int)
    (ps : List ProtoPeerForCatchup) :
    List.Sorted codeLE (selectBestPeersForCatchup targetHeight ps) ∧
    (selectBestPeersForCatchup targetHeight ps).Perm
      (serverFilterPeers targetHeight ps) :=
  ⟨List.sorted_insertionSort codeLE _, List.perm_insertionSort codeLE _⟩

/-- C3: every peer in the catchup selection output is healthy, has a
DataHub URL, sits at or above the target height, and corresponds to a
registry record that is not banned (the ban filter lives in the
registry-side `GetPeersForCatchup`, modelled from the spec). -/
theorem selectFromRegistry_filter_invariants (targetHeight : Int)
    (peers : List PeerInfo) (q : PeerForCatchup)
    (hq : q ∈ selectFromRegistry targetHeight peers) :
    q.isHealthy = true ∧ q.dataHubURL ≠ "" ∧ targetHeight ≤ q.height ∧
    ∃ rec, rec ∈ peers ∧ rec.id = q.id ∧ rec.isBanned = false ∧
      rec.isHealthy = true ∧ rec.dataHubURL ≠ "" ∧ targetHeight ≤ rec.height := by
  unfold selectFromRegistry selectBestPeersForCatchup at hq
  rw [List.mem_insertionSort] at hq
  unfold serverFilterPeers at hq
  rcases List.mem_filterMap.mp hq with ⟨p, hp, hfp⟩
  by_cases h1 : p.height < targetHeight
  · rw [if_pos h1] at hfp
    cases hfp
  rw [if_neg h1] at hfp
  by_cases h2 : (!p.isHealthy) = true
  · rw [if_pos h2] at hfp
    cases hfp
  rw [if_neg h2] at hfp
  by_cases h3 : (p.dataHubUrl == "") = true
  · rw [if_pos h3] at hfp
    cases hfp
  rw [if_neg h3] at hfp
  have hqp : q = toPeerForCatchup p := (Option.some_inj.mp hfp).symm
  unfold registryPeersForCatchup at hp
  rcases List.mem_map.mp hp with ⟨rec, hrec, hpr⟩
  have hfil := List.mem_filter.mp hrec
  have hcond := hfil.2
  simp only [Bool.and_eq_true, Bool.not_eq_true'] at hcond
  obtain ⟨⟨hban, hheal⟩, hurl⟩ := hcond
  subst hqp
  subst hpr
  have hhealthy : rec.isHealthy = true := hheal
  have hurlne : rec.dataHubURL ≠ "" := by
    intro hcontr
    rw [hcontr] at hurl
    simp at hurl
  have hheight : targetHeight ≤ rec.height := not_lt.mp h1
  refine ⟨hhealthy, ?_, hheight, rec, hfil.1, rfl, hban, hhealthy, hurlne, hheight⟩
  exact hurlne

/-- Witness for C3 on a one-record registry holding a healthy, unbanned
peer at height 10 with a DataHub URL, selected for target height 5. -/
theorem selectFromRegistry_filter_invariants_witness :
    toPeerForCatchup (toProtoPeer goodPeerA) ∈ selectFromRegistry 5 [goodPeerA] ∧
    ((toPeerForCatchup (toProtoPeer goodPeerA)).isHealthy = true ∧
      (toPeerForCatchup (toProtoPeer goodPeerA)).dataHubURL ≠ "" ∧
      (5 : Int) ≤ (toPeerForCatchup (toProtoPeer goodPeerA)).height ∧
      ∃ rec, rec ∈ [goodPeerA] ∧
        rec.id = (toPeerForCatchup (toProtoPeer goodPeerA)).id ∧
        rec.isBanned = false ∧ rec.isHealthy = true ∧ rec.dataHubURL ≠ "" ∧
        (5 : Int) ≤ rec.height) := by
  have h : toPeerForCatchup (toProtoPeer goodPeerA) ∈ selectFromRegistry 5 [goodPeerA] := by
    decide
  exact ⟨h, selectFromRegistry_filter_invariants 5 [goodPeerA] _ h⟩

end Teranode
